import Mathlib

/-!
Verification of the camper-parking aggregation pipeline
(`dynamic_camper_parking_ai.py`): data model, deduplication engine,
requirement filter, ranking, result cache and aggregation orchestrator,
embedded shallowly.  Python floats are modelled as rationals; the
haversine distance is modelled over the reals.
-/

/-- Mirror of the `ScrapedParkingSpot` dataclass.  Coordinates, restriction
values and confidence are rationals standing for the Python floats. -/
structure ScrapedParkingSpot where
  name : String
  latitude : ℚ
  longitude : ℚ
  address : String
  parking_type : String
  max_height : Option ℚ
  max_weight : Option ℚ
  has_facilities : Bool
  overnight_allowed : Bool
  restrictions : List String
  source : String
  confidence : ℚ
deriving DecidableEq, Repr

/-- Mirror of the `CamperRequirements` dataclass. -/
structure CamperRequirements where
  height : ℚ
  weight : ℚ
  length : ℚ
  needs_facilities : Bool
  needs_overnight : Bool
  radius_km : ℚ
deriving DecidableEq, Repr

/-- One step of the inner loop of `_deduplicate_spots`: process one incoming
`spot` against the current list of accepted spots, scanned left to right.
At the first accepted spot `e` with `isDup spot e` (distance below 0.1 km in
the concrete instantiation), the incoming spot replaces `e` (removed in
place, new spot appended at the end) when its confidence is strictly
greater, and is discarded otherwise; scanning stops at that first match.
If no accepted spot matches, the incoming spot is appended at the end. -/
def processSpot (isDup : ScrapedParkingSpot → ScrapedParkingSpot → Bool)
    (spot : ScrapedParkingSpot) :
    List ScrapedParkingSpot → List ScrapedParkingSpot
  | [] => [spot]
  | e :: rest =>
    if isDup spot e then
      if e.confidence < spot.confidence then rest ++ [spot] else e :: rest
    else e :: processSpot isDup spot rest

/-- Mirror of `_deduplicate_spots`, parametrised by the duplicate test (the
Python method calls `self._calculate_distance(...) < 0.1`; the haversine
instantiation is `deduplicate_spotsH` below). -/
def deduplicate_spots (isDup : ScrapedParkingSpot → ScrapedParkingSpot → Bool)
    (spots : List ScrapedParkingSpot) : List ScrapedParkingSpot :=
  spots.foldl (fun acc spot => processSpot isDup spot acc) []

/-- Height check of `_filter_spots`: the Python guard is
`if spot.max_height and spot.max_height < reqs.height: continue`, so a
missing value is falsy and so is a stored value of exactly `0.0`. -/
def height_blocked (spot : ScrapedParkingSpot) (reqs : CamperRequirements) : Bool :=
  match spot.max_height with
  | none => false
  | some h => if h = 0 then false else decide (h < reqs.height)

/-- Weight check of `_filter_spots`, with the same truthiness behaviour. -/
def weight_blocked (spot : ScrapedParkingSpot) (reqs : CamperRequirements) : Bool :=
  match spot.max_weight with
  | none => false
  | some w => if w = 0 then false else decide (w < reqs.weight)

/-- Facility check of `_filter_spots`:
`if reqs.needs_facilities and not spot.has_facilities: continue`. -/
def facilities_blocked (spot : ScrapedParkingSpot) (reqs : CamperRequirements) : Bool :=
  reqs.needs_facilities && !spot.has_facilities

/-- Overnight check of `_filter_spots`:
`if reqs.needs_overnight and not spot.overnight_allowed: continue`. -/
def overnight_blocked (spot : ScrapedParkingSpot) (reqs : CamperRequirements) : Bool :=
  reqs.needs_overnight && !spot.overnight_allowed

/-- A spot survives all four `continue` guards of `_filter_spots`. -/
def spot_suitable (spot : ScrapedParkingSpot) (reqs : CamperRequirements) : Bool :=
  !height_blocked spot reqs && !weight_blocked spot reqs &&
  !facilities_blocked spot reqs && !overnight_blocked spot reqs

/-- Insert one spot into an already sorted-by-descending-confidence list,
after every element of strictly greater confidence and also after the
earlier-inserted elements of equal confidence.  Together with
`sortByConfidenceDesc` this reproduces the stable Python
`sorted(key=lambda x: x.confidence, reverse=True)`. -/
def insertByConf (s : ScrapedParkingSpot) :
    List ScrapedParkingSpot → List ScrapedParkingSpot
  | [] => [s]
  | t :: ts =>
    if s.confidence < t.confidence then t :: insertByConf s ts else s :: t :: ts

/-- Stable sort by confidence, descending. -/
def sortByConfidenceDesc : List ScrapedParkingSpot → List ScrapedParkingSpot
  | [] => []
  | s :: ss => insertByConf s (sortByConfidenceDesc ss)

/-- Mirror of `_filter_spots`: keep the suitable spots (in order) and return them
sorted by confidence, descending, stably. -/
def filter_spots (spots : List ScrapedParkingSpot) (reqs : CamperRequirements) :
    List ScrapedParkingSpot :=
  sortByConfidenceDesc (spots.filter (fun s => spot_suitable s reqs))

/-- Mirror of `_calculate_distance`: haversine distance in kilometres between two
degree-valued coordinate pairs, Earth radius 6371 km.  The four inputs are
converted to radians, then
`a = sin(dlat/2)^2 + cos(lat1) * cos(lat2) * sin(dlon/2)^2` and the result
is `2 * asin(sqrt a) * 6371`. -/
noncomputable def calculate_distance (lat1 lon1 lat2 lon2 : ℝ) : ℝ :=
  let lat1r := lat1 * Real.pi / 180
  let lon1r := lon1 * Real.pi / 180
  let lat2r := lat2 * Real.pi / 180
  let lon2r := lon2 * Real.pi / 180
  let dlat := lat2r - lat1r
  let dlon := lon2r - lon1r
  let a := Real.sin (dlat / 2) ^ 2 +
    Real.cos lat1r * Real.cos lat2r * Real.sin (dlon / 2) ^ 2
  2 * Real.arcsin (Real.sqrt a) * 6371

/-- The duplicate test used by `_deduplicate_spots`:
`self._calculate_distance(spot..., existing...) < 0.1`. -/
noncomputable def spotsCloseH (spot existing : ScrapedParkingSpot) : Bool :=
  @decide (calculate_distance (spot.latitude : ℝ) (spot.longitude : ℝ)
    (existing.latitude : ℝ) (existing.longitude : ℝ) < 1 / 10)
    (Classical.propDecidable _)

/-- Mirror of `_deduplicate_spots` with its actual haversine duplicate
test. -/
noncomputable def deduplicate_spotsH (spots : List ScrapedParkingSpot) :
    List ScrapedParkingSpot :=
  deduplicate_spots spotsCloseH spots

/-- The invariant claimed of the deduplication output: no two spots of the
list are within 0.1 km of each other (great-circle distance). -/
def pairwiseSeparated (l : List ScrapedParkingSpot) : Prop :=
  l.Pairwise (fun a b =>
    ¬ calculate_distance (a.latitude : ℝ) (a.longitude : ℝ)
        (b.latitude : ℝ) (b.longitude : ℝ) < 1 / 10)

/-- Errors that a connector can raise past its own boundary.  In the OSM
scraper the `try` block catches only `requests.RequestException` and
`json.JSONDecodeError`; a `KeyError` raised while reading
the center latitude or longitude key in `_parse_osm_element`
propagates out of the scraper. -/
inductive PyErr where
  | keyError
deriving DecidableEq, Repr

/-- One element of the Overpass JSON answer, as `_parse_osm_element` reads
it: optional top-level `lat`/`lon`, an optional `center` object whose own
`lat`/`lon` keys may be missing, and the descriptive data otherwise derived
from the `tags` dictionary (that derivation is total string processing and
is carried here already computed). -/
structure OsmElement where
  lat : Option ℚ
  lon : Option ℚ
  center : Option (Option ℚ × Option ℚ)
  name : String
  address : String
  parking_type : String
  max_height : Option ℚ
  max_weight : Option ℚ
  has_facilities : Bool
  overnight_allowed : Bool
  restrictions : List String
deriving DecidableEq, Repr

/-- Build the `ScrapedParkingSpot` that `_parse_osm_element` returns, with
`source="OpenStreetMap"` and `confidence=0.8`. -/
def mkOsmSpot (e : OsmElement) (la lo : ℚ) : ScrapedParkingSpot :=
  { name := e.name, latitude := la, longitude := lo, address := e.address,
    parking_type := e.parking_type, max_height := e.max_height,
    max_weight := e.max_weight, has_facilities := e.has_facilities,
    overnight_allowed := e.overnight_allowed, restrictions := e.restrictions,
    source := "OpenStreetMap", confidence := 4/5 }

/-- Mirror of `_parse_osm_element`: use top-level `lat`/`lon` when both are
present,
otherwise fall back to the latitude and
longitude keys of the center object — raising `KeyError` when `center`
exists but
lacks one of them — and return `None` (no spot) when there is no `center`
either. -/
def parse_osm_element (e : OsmElement) : Except PyErr (Option ScrapedParkingSpot) :=
  match e.lat, e.lon with
  | some la, some lo => .ok (some (mkOsmSpot e la lo))
  | _, _ =>
    match e.center with
    | some (cla, clo) =>
      match cla with
      | none => .error .keyError
      | some la =>
        match clo with
        | none => .error .keyError
        | some lo => .ok (some (mkOsmSpot e la lo))
    | none => .ok none

/-- The parse loop of `OpenStreetMapScraper.search_parking_spots`: parse
every element, keeping the parsed spots; a `KeyError` raised by
`_parse_osm_element` is not caught by the surrounding `except` clauses and
aborts the whole call. -/
def collectOsmSpots : List OsmElement → Except PyErr (List ScrapedParkingSpot)
  | [] => .ok []
  | e :: es =>
    match parse_osm_element e with
    | .error err => .error err
    | .ok none => collectOsmSpots es
    | .ok (some s) =>
      match collectOsmSpots es with
      | .error err => .error err
      | .ok rest => .ok (s :: rest)

/-- Mirror of `OpenStreetMapScraper.search_parking_spots`.  The network
interaction is
abstracted as its outcome: `.error` for a `requests.RequestException`
(caught — the scraper returns the empty list), `.ok .error` for a
`json.JSONDecodeError` (also caught), `.ok (.ok elements)` for a decoded
answer, whose elements are then parsed; a parse `KeyError` escapes. -/
def osm_search (response : Except Unit (Except Unit (List OsmElement))) :
    Except PyErr (List ScrapedParkingSpot) :=
  match response with
  | .error _ => .ok []
  | .ok (.error _) => .ok []
  | .ok (.ok elements) => collectOsmSpots elements

/-- A connector body wrapped in a broad `except Exception` handler that
degrades any internal failure to the empty contribution. -/
def absorbExcept (r : Except Unit (List ScrapedParkingSpot)) :
    List ScrapedParkingSpot :=
  match r with
  | .error _ => []
  | .ok l => l

/-- Mirror of `GooglePlacesScraper.search_parking_spots`: with no API key it
returns
the empty list; otherwise each of the four place-type searches is wrapped
in its own broad `except Exception`, so every per-type outcome degrades to
a (possibly empty) list and the contributions are concatenated. -/
def google_search (api_key : Bool)
    (responses : List (Except Unit (List ScrapedParkingSpot))) :
    List ScrapedParkingSpot :=
  if api_key then (responses.map absorbExcept).flatten else []

/-- Mirror of `CityWebsiteScraper.search_parking_spots`: the whole body is
wrapped in
a broad `except Exception` returning the empty list, so any internal
failure degrades to the empty contribution. -/
def city_search (response : Except Unit (List ScrapedParkingSpot)) :
    List ScrapedParkingSpot :=
  absorbExcept response

/-- The external world seen by one `find_parking_spots` call: the geocoder
answer for the requested location, the raw outcome of each connector, and
the wall-clock time (`time.time()`). -/
structure Env where
  geocode : Option (ℚ × ℚ)
  osm_response : Except Unit (Except Unit (List OsmElement))
  google_key : Bool
  google_responses : List (Except Unit (List ScrapedParkingSpot))
  city_response : Except Unit (List ScrapedParkingSpot)
  now : ℚ

/-- The in-memory cache `self.cache`, a map from key to
(deduplicated spots, creation timestamp). -/
def Cache : Type := ℚ × ℚ × ℚ → Option (List ScrapedParkingSpot × ℚ)

/-- Store to the cache dictionary (`self.cache[cache_key] = ...`). -/
def cacheInsert (c : Cache) (k : ℚ × ℚ × ℚ)
    (v : List ScrapedParkingSpot × ℚ) : Cache :=
  fun k' => if k' = k then some v else c k'

/-- Mirror of `self.cache_duration = 3600` (one hour, in seconds). -/
def cache_duration : ℚ := 3600

/-- Round to 4 decimal places, as the `f"{lat:.4f}"` formatting of the
cache key does. -/
def round4 (q : ℚ) : ℚ := (round (q * 10000) : ℤ) / 10000

/-- The cache key `f"{lat:.4f}_{lon:.4f}_{radius}"`. -/
def cacheKey (la lo radius : ℚ) : ℚ × ℚ × ℚ :=
  (round4 la, round4 lo, radius)

/-- Mirror of `DynamicParkingFinder.find_parking_spots`: geocode (a failure
returns
the empty list), build the cache key, return the filtered cached
deduplicated set on a fresh hit, otherwise call the three connectors in
order (OSM, Google, city), concatenate, deduplicate, store the
deduplicated set with the current time, and return the filtered set.  A
connector exception not absorbed inside the connector propagates. -/
noncomputable def find_parking_spots (env : Env) (camper_reqs : CamperRequirements)
    (cache : Cache) :
    Except PyErr (List ScrapedParkingSpot × Cache) :=
  match env.geocode with
  | none => .ok ([], cache)
  | some (la, lo) =>
    let key := cacheKey la lo camper_reqs.radius_km
    let hit : Option (List ScrapedParkingSpot) :=
      match cache key with
      | some (cached_data, timestamp) =>
        if env.now - timestamp < cache_duration then some cached_data else none
      | none => none
    match hit with
    | some cached_data => .ok (filter_spots cached_data camper_reqs, cache)
    | none =>
      match osm_search env.osm_response with
      | .error e => .error e
      | .ok osm_spots =>
        let all_spots := osm_spots ++
          google_search env.google_key env.google_responses ++
          city_search env.city_response
        let unique_spots := deduplicate_spotsH all_spots
        .ok (filter_spots unique_spots camper_reqs,
          cacheInsert cache key (unique_spots, env.now))

/-- The parameters of one search, saved and echoed back in the
`no_results` answer as `current_params`. -/
structure SearchParams where
  location : String
  height : ℚ
  weight : ℚ
  length : ℚ
  needs_facilities : Bool
  needs_overnight : Bool
  radius_km : ℚ
deriving DecidableEq, Repr

/-- The dictionary returned by `DynamicCamperParkingAI.search_parking`,
one constructor per `status` value. -/
inductive SearchResult where
  | no_results (message : String) (suggestion : String)
      (current_params : SearchParams)
  | success (location : String) (radius_km : ℚ) (spots_found : ℕ)
      (parking_spots : List ScrapedParkingSpot)
  | error (message : String)
deriving DecidableEq, Repr

/-- The `CamperRequirements` value that `search_parking` builds from its
arguments. -/
def reqsOfParams (p : SearchParams) : CamperRequirements :=
  { height := p.height, weight := p.weight, length := p.length,
    needs_facilities := p.needs_facilities,
    needs_overnight := p.needs_overnight, radius_km := p.radius_km }

/-- Mirror of `DynamicCamperParkingAI.search_parking`: run the finder inside
a broad
`try`; an escaping exception becomes the `error` status; an empty spot
list becomes the `no_results` status carrying the attempted parameters;
otherwise the `success` status with the ordered spots. -/
noncomputable def search_parking (env : Env) (p : SearchParams) (cache : Cache) :
    SearchResult × Cache :=
  match find_parking_spots env (reqsOfParams p) cache with
  | .error _ => (.error "Search failed", cache)
  | .ok (spots, cache') =>
    match spots with
    | [] =>
      (.no_results ("No suitable parking spots found near " ++ p.location)
        "Try expanding search radius or adjusting requirements" p, cache')
    | _ => (.success p.location p.radius_km spots.length spots, cache')

/-- Mirror of `retry_with_larger_radius`: rerun `search_parking` with the
saved
parameters and a new radius. -/
noncomputable def retry_with_larger_radius (env : Env) (search_params : SearchParams)
    (new_radius : ℚ) (cache : Cache) : SearchResult × Cache :=
  search_parking env { search_params with radius_km := new_radius } cache

/-- The retention predicate as the specification words it: a recorded
maximum height (or weight) is compared against the requirement whatever
its value, and only a missing restriction is permissive. -/
def specRetains (spot : ScrapedParkingSpot) (reqs : CamperRequirements) : Bool :=
  (match spot.max_height with
   | none => true
   | some h => decide (reqs.height ≤ h)) &&
  (match spot.max_weight with
   | none => true
   | some w => decide (reqs.weight ≤ w)) &&
  (!reqs.needs_facilities || spot.has_facilities) &&
  (!reqs.needs_overnight || spot.overnight_allowed)

/-- The retention predicate as the code actually behaves: a recorded
restriction equal to `0.0` is permissive exactly like a missing one. -/
def specRetainsZeroAbsent (spot : ScrapedParkingSpot)
    (reqs : CamperRequirements) : Bool :=
  (match spot.max_height with
   | none => true
   | some h => decide (h = 0) || decide (reqs.height ≤ h)) &&
  (match spot.max_weight with
   | none => true
   | some w => decide (w = 0) || decide (reqs.weight ≤ w)) &&
  (!reqs.needs_facilities || spot.has_facilities) &&
  (!reqs.needs_overnight || spot.overnight_allowed)

/-- A spot whose recorded maximum height is exactly `0.0`. -/
def zeroHeightSpot : ScrapedParkingSpot :=
  { name := "Zero height limit", latitude := 0, longitude := 0, address := "",
    parking_type := "parking_lot", max_height := some 0, max_weight := none,
    has_facilities := false, overnight_allowed := true, restrictions := [],
    source := "OpenStreetMap", confidence := 4/5 }

/-- A spot whose recorded maximum weight is exactly `0.0`. -/
def zeroWeightSpot : ScrapedParkingSpot :=
  { name := "Zero weight limit", latitude := 0, longitude := 0, address := "",
    parking_type := "parking_lot", max_height := none, max_weight := some 0,
    has_facilities := false, overnight_allowed := true, restrictions := [],
    source := "OpenStreetMap", confidence := 4/5 }

/-- A spot with a recorded maximum height of `3.0` metres. -/
def height3Spot : ScrapedParkingSpot :=
  { name := "Height limit 3.0", latitude := 0, longitude := 0, address := "",
    parking_type := "parking_lot", max_height := some 3, max_weight := none,
    has_facilities := false, overnight_allowed := true, restrictions := [],
    source := "OpenStreetMap", confidence := 4/5 }

/-- Requirements with height `3.2` m and no amenity demands. -/
def reqsHeight32 : CamperRequirements :=
  { height := 16/5, weight := 7/2, length := 7, needs_facilities := false,
    needs_overnight := false, radius_km := 10 }

/-- Requirements with height `2.8` m and no amenity demands. -/
def reqsHeight28 : CamperRequirements :=
  { height := 14/5, weight := 7/2, length := 7, needs_facilities := false,
    needs_overnight := false, radius_km := 10 }

/-- Concrete isDup for witnesses: two spots are duplicates when they carry
the same name (kernel-decidable, unlike the rational haversine test). -/
def nameDup (a b : ScrapedParkingSpot) : Bool := decide (a.name = b.name)

/-- First spot of the C1 counterexample: latitude 0, confidence 0.5. -/
def dedupSpotA : ScrapedParkingSpot :=
  { name := "A", latitude := 0, longitude := 0, address := "",
    parking_type := "parking_lot", max_height := none, max_weight := none,
    has_facilities := false, overnight_allowed := true, restrictions := [],
    source := "OpenStreetMap", confidence := 1/2 }

/-- Second spot: latitude 0.0016 degrees (about 178 m from `dedupSpotA`
along the meridian), confidence 0.5. -/
def dedupSpotB : ScrapedParkingSpot :=
  { name := "B", latitude := 16/10000, longitude := 0, address := "",
    parking_type := "parking_lot", max_height := none, max_weight := none,
    has_facilities := false, overnight_allowed := true, restrictions := [],
    source := "OpenStreetMap", confidence := 1/2 }

/-- Third spot: latitude 0.0008 degrees (about 89 m from both `dedupSpotA`
and `dedupSpotB`), confidence 0.9. -/
def dedupSpotC : ScrapedParkingSpot :=
  { name := "C", latitude := 8/10000, longitude := 0, address := "",
    parking_type := "parking_lot", max_height := none, max_weight := none,
    has_facilities := false, overnight_allowed := true, restrictions := [],
    source := "OpenStreetMap", confidence := 9/10 }

/-- The concatenation `all_spots` built by the miss path of
`find_parking_spots`: OSM, then Google, then city contributions. -/
def all_spots_from (env : Env) (osm_spots : List ScrapedParkingSpot) :
    List ScrapedParkingSpot :=
  osm_spots ++ google_search env.google_key env.google_responses ++
    city_search env.city_response

/-- An empty cache. -/
def emptyCache : Cache := fun _ => none

/-- A cache answering every key with the same entry (spots `[dedupSpotA]`
stored at time 100); convenient for witnesses because the lookup needs no
key comparison. -/
def stockedCache : Cache := fun _ => some ([dedupSpotA], 100)

/-- Demo search parameters. -/
def demoParams : SearchParams :=
  { location := "Helsinki", height := 16/5, weight := 7/2, length := 7,
    needs_facilities := false, needs_overnight := true, radius_km := 10 }

/-- The requirements built from `demoParams`. -/
def demoReqs : CamperRequirements := reqsOfParams demoParams

/-- An environment that geocodes to (60, 24) and whose connectors all
return nothing. -/
def emptyEnv : Env :=
  { geocode := some (60, 24), osm_response := .ok (.ok []),
    google_key := false, google_responses := [], city_response := .ok [],
    now := 0 }

/-- A candidate spot that forbids overnight parking (filtered out by a
`needs_overnight` search) with no other restrictions. -/
def noOvernightSpot : ScrapedParkingSpot :=
  { name := "Day parking only", latitude := 60, longitude := 24,
    address := "", parking_type := "parking_lot", max_height := none,
    max_weight := none, has_facilities := false, overnight_allowed := false,
    restrictions := [], source := "City Website", confidence := 7/10 }

/-- Like `emptyEnv`, but the city connector returns one candidate that the
Requirement Filter will remove. -/
def filteredEnv : Env :=
  { emptyEnv with city_response := .ok [noOvernightSpot] }

/-- An OSM element with no top-level coordinates and a `center` object
missing its `lat`/`lon` keys: `_parse_osm_element` raises `KeyError` on
it. -/
def malformedElement : OsmElement :=
  { lat := none, lon := none, center := some (none, none), name := "broken",
    address := "", parking_type := "parking_lot", max_height := none,
    max_weight := none, has_facilities := false, overnight_allowed := true,
    restrictions := [] }

/-- An environment whose OSM answer decodes to one malformed element while
the city connector has a perfectly good candidate. -/
def badOsmEnv : Env :=
  { emptyEnv with
    osm_response := .ok (.ok [malformedElement]),
    city_response := .ok [noOvernightSpot] }

lemma not_truthy_lt (v bound : ℚ) :
    (!(if v = 0 then false else decide (v < bound))) =
      (decide (v = 0) || decide (bound ≤ v)) := by
  by_cases h0 : v = 0 <;> simp [h0, ← decide_not, not_le]

lemma spot_suitable_eq_specRetainsZeroAbsent (spot : ScrapedParkingSpot)
    (reqs : CamperRequirements) :
    spot_suitable spot reqs = specRetainsZeroAbsent spot reqs := by
  unfold spot_suitable specRetainsZeroAbsent height_blocked weight_blocked
    facilities_blocked overnight_blocked
  rcases spot.max_height with _ | h <;> rcases spot.max_weight with _ | w <;>
    simp only [not_truthy_lt, Bool.not_false, Bool.not_and, Bool.not_not,
      Bool.true_and, Bool.and_assoc]

lemma insertByConf_split (s : ScrapedParkingSpot) (m : List ScrapedParkingSpot) :
    ∃ p q, m = p ++ q ∧ (∀ t ∈ p, s.confidence < t.confidence) ∧
      insertByConf s m = p ++ s :: q := by
  induction m with
  | nil => exact ⟨[], [], rfl, by simp, rfl⟩
  | cons t ts ih =>
    by_cases hlt : s.confidence < t.confidence
    · obtain ⟨p, q, hm, hp, hins⟩ := ih
      refine ⟨t :: p, q, by simp [hm], ?_, by simp [insertByConf, hlt, hins]⟩
      intro x hx
      rcases List.mem_cons.mp hx with rfl | hx
      · exact hlt
      · exact hp x hx
    · exact ⟨[], t :: ts, rfl, by simp, by simp [insertByConf, hlt]⟩

lemma mem_insertByConf {x s : ScrapedParkingSpot}
    {m : List ScrapedParkingSpot} :
    x ∈ insertByConf s m ↔ x = s ∨ x ∈ m := by
  obtain ⟨p, q, hm, _, hins⟩ := insertByConf_split s m
  subst hm
  simp [hins, List.mem_append, List.mem_cons]
  tauto

lemma insertByConf_pairwise {s : ScrapedParkingSpot}
    {m : List ScrapedParkingSpot}
    (h : m.Pairwise (fun a b => b.confidence ≤ a.confidence)) :
    (insertByConf s m).Pairwise (fun a b => b.confidence ≤ a.confidence) := by
  induction m with
  | nil => simp [insertByConf]
  | cons t ts ih =>
    rcases List.pairwise_cons.mp h with ⟨ht, hts⟩
    by_cases hlt : s.confidence < t.confidence
    · rw [insertByConf, if_pos hlt]
      refine List.pairwise_cons.mpr ⟨?_, ih hts⟩
      intro x hx
      rcases mem_insertByConf.mp hx with rfl | hx
      · exact le_of_lt hlt
      · exact ht x hx
    · rw [insertByConf, if_neg hlt]
      refine List.pairwise_cons.mpr ⟨?_, h⟩
      intro x hx
      rcases List.mem_cons.mp hx with rfl | hx
      · exact not_lt.mp hlt
      · exact le_trans (ht x hx) (not_lt.mp hlt)

lemma sortByConfidenceDesc_pairwise (l : List ScrapedParkingSpot) :
    (sortByConfidenceDesc l).Pairwise (fun a b => b.confidence ≤ a.confidence) := by
  induction l with
  | nil => simp [sortByConfidenceDesc]
  | cons s ss ih => exact insertByConf_pairwise ih

lemma filter_insertByConf (s : ScrapedParkingSpot)
    (m : List ScrapedParkingSpot) (c : ℚ) :
    (insertByConf s m).filter (fun x => x.confidence = c) =
      (if s.confidence = c then [s] else []) ++
        m.filter (fun x => x.confidence = c) ∨
    ((insertByConf s m).filter (fun x => x.confidence = c) =
      m.filter (fun x => x.confidence = c) ∧ ¬ s.confidence = c) := by
  obtain ⟨p, q, hm, hp, hins⟩ := insertByConf_split s m
  subst hm
  by_cases hc : s.confidence = c
  · left
    have hpf : p.filter (fun x => x.confidence = c) = [] := by
      rw [List.filter_eq_nil_iff]
      intro t htp
      have := hp t htp
      simp only [decide_eq_true_eq]
      intro htc
      rw [← hc] at htc
      exact absurd htc (ne_of_gt this)
    simp [hins, List.filter_append, hpf, hc]
  · right
    refine ⟨?_, hc⟩
    simp [hins, List.filter_append, hc]

lemma sortByConfidenceDesc_filter_confidence (l : List ScrapedParkingSpot)
    (c : ℚ) :
    (sortByConfidenceDesc l).filter (fun x => x.confidence = c) =
      l.filter (fun x => x.confidence = c) := by
  induction l with
  | nil => rfl
  | cons s ss ih =>
    rw [sortByConfidenceDesc]
    rcases filter_insertByConf s (sortByConfidenceDesc ss) c with h | ⟨h, hc⟩
    · by_cases hc : s.confidence = c
      · simp [h, hc, ih, List.filter_cons]
      · simp [h, hc, ih, List.filter_cons]
    · simp [h, hc, ih, List.filter_cons]

lemma mem_sortByConfidenceDesc {x : ScrapedParkingSpot}
    {l : List ScrapedParkingSpot} :
    x ∈ sortByConfidenceDesc l ↔ x ∈ l := by
  induction l with
  | nil => simp [sortByConfidenceDesc]
  | cons s ss ih =>
    rw [sortByConfidenceDesc]
    rw [mem_insertByConf]
    simp [ih]

/-- C3 counterexample: the Requirement Filter retains a spot whose recorded
`max_height` is `0.0` at requirement height `3.2`, although the claimed
condition (recorded max height `≥` requirement height, a present
restriction never being treated as absent) says it must be excluded. -/
theorem c3_filter_counterexample :
    zeroHeightSpot ∈ filter_spots [zeroHeightSpot] reqsHeight32 ∧
      specRetains zeroHeightSpot reqsHeight32 = false := by
  constructor
  · simp [filter_spots, sortByConfidenceDesc, insertByConf, spot_suitable,
      height_blocked, weight_blocked, facilities_blocked, overnight_blocked,
      zeroHeightSpot, reqsHeight32]
  · norm_num [specRetains, zeroHeightSpot, reqsHeight32]

/-- C3 amended: the Requirement Filter retains a spot if and only if all
four conditions hold, where the height and weight conditions read "no
recorded value, OR recorded value equal to `0.0`, OR recorded value at
least the requirement" — a recorded restriction of exactly `0.0` is
treated like an absent one.  In particular a spot with recorded maximum
height `3.0` is excluded at requirement height `3.2` and included at
`2.8`. -/
theorem c3_filter_retention :
    (∀ (spots : List ScrapedParkingSpot) (spot : ScrapedParkingSpot)
      (reqs : CamperRequirements),
      spot ∈ filter_spots spots reqs ↔
        spot ∈ spots ∧ specRetainsZeroAbsent spot reqs = true) ∧
    spot_suitable height3Spot reqsHeight32 = false ∧
    spot_suitable height3Spot reqsHeight28 = true := by
  refine ⟨?_, ?_, ?_⟩
  · intro spots spot reqs
    rw [filter_spots, mem_sortByConfidenceDesc, List.mem_filter,
      spot_suitable_eq_specRetainsZeroAbsent]
  · norm_num [spot_suitable, height_blocked, weight_blocked, facilities_blocked,
      overnight_blocked, height3Spot, reqsHeight32]
  · norm_num [spot_suitable, height_blocked, weight_blocked, facilities_blocked,
      overnight_blocked, height3Spot, reqsHeight28]

/-- C9: the Requirement Filter returns the retained records sorted by
confidence in descending order, and stably: for every confidence value the
sub-sequence of returned records with that confidence equals the
sub-sequence of retained input records with that confidence, in input
order (the input being the output of the Deduplication Engine). -/
theorem c9_ranking_sorted_stable (spots : List ScrapedParkingSpot)
    (reqs : CamperRequirements) :
    (filter_spots spots reqs).Pairwise
      (fun a b => b.confidence ≤ a.confidence) ∧
    ∀ c : ℚ, (filter_spots spots reqs).filter (fun s => s.confidence = c) =
      (spots.filter (fun s => spot_suitable s reqs)).filter
        (fun s => s.confidence = c) := by
  constructor
  · exact sortByConfidenceDesc_pairwise _
  · intro c
    exact sortByConfidenceDesc_filter_confidence _ c

/-- C10: a recorded `max_height` of exactly `0.0` never blocks a spot,
whatever the requirement height, and behaves exactly like an absent
restriction; likewise a recorded `max_weight` of `0.0`. -/
theorem c10_zero_restriction_permissive (spotH spotW : ScrapedParkingSpot)
    (hh : spotH.max_height = some 0) (hw : spotW.max_weight = some 0) :
    (∀ reqs, height_blocked spotH reqs = false ∧
      height_blocked spotH reqs =
        height_blocked { spotH with max_height := none } reqs) ∧
    (∀ reqs, weight_blocked spotW reqs = false ∧
      weight_blocked spotW reqs =
        weight_blocked { spotW with max_weight := none } reqs) := by
  constructor
  · intro reqs
    constructor <;> simp [height_blocked, hh]
  · intro reqs
    constructor <;> simp [weight_blocked, hw]

/-- Witness for C10 at concrete spots with recorded `0.0` limits. -/
theorem c10_zero_restriction_permissive_witness :
    (∀ reqs, height_blocked zeroHeightSpot reqs = false ∧
      height_blocked zeroHeightSpot reqs =
        height_blocked { zeroHeightSpot with max_height := none } reqs) ∧
    (∀ reqs, weight_blocked zeroWeightSpot reqs = false ∧
      weight_blocked zeroWeightSpot reqs =
        weight_blocked { zeroWeightSpot with max_weight := none } reqs) :=
  c10_zero_restriction_permissive zeroHeightSpot zeroWeightSpot rfl rfl

lemma processSpot_no_match (isDup : ScrapedParkingSpot → ScrapedParkingSpot → Bool)
    (s : ScrapedParkingSpot) :
    ∀ acc, (∀ e ∈ acc, isDup s e = false) →
      processSpot isDup s acc = acc ++ [s] := by
  intro acc h
  induction acc with
  | nil => rfl
  | cons e rest ih =>
    have he := h e (List.mem_cons_self e rest)
    simp [processSpot, he, ih fun x hx => h x (List.mem_cons_of_mem e hx)]

lemma processSpot_cases_no_replace
    (isDup : ScrapedParkingSpot → ScrapedParkingSpot → Bool)
    (s : ScrapedParkingSpot) (c : ℚ) (hs : s.confidence = c) :
    ∀ acc, (∀ e ∈ acc, e.confidence = c) →
      processSpot isDup s acc = acc ∨
      (processSpot isDup s acc = acc ++ [s] ∧ ∀ e ∈ acc, isDup s e = false) := by
  intro acc hacc
  induction acc with
  | nil => exact Or.inr ⟨rfl, by simp⟩
  | cons e rest ih =>
    by_cases hdup : isDup s e = true
    · left
      have hconf : ¬ e.confidence < s.confidence := by
        rw [hs, hacc e (List.mem_cons_self e rest)]
        exact lt_irrefl c
      simp [processSpot, hdup, hconf]
    · have hd : isDup s e = false := by simpa using hdup
      rcases ih (fun x hx => hacc x (List.mem_cons_of_mem e hx)) with h1 | ⟨h1, hall⟩
      · left
        simp [processSpot, hd, h1]
      · right
        refine ⟨by simp [processSpot, hd, h1], ?_⟩
        intro x hx
        rcases List.mem_cons.mp hx with rfl | hx
        · exact hd
        · exact hall x hx

lemma foldl_processSpot_invariant
    (isDup : ScrapedParkingSpot → ScrapedParkingSpot → Bool) (c : ℚ) :
    ∀ (l acc : List ScrapedParkingSpot),
      (∀ s ∈ l, s.confidence = c) → (∀ s ∈ acc, s.confidence = c) →
      acc.Pairwise (fun a b => isDup b a = false) →
      (l.foldl (fun a s => processSpot isDup s a) acc).Pairwise
          (fun a b => isDup b a = false) ∧
        ∀ s ∈ l.foldl (fun a s => processSpot isDup s a) acc,
          s.confidence = c := by
  intro l
  induction l with
  | nil => exact fun acc _ hacc hp => ⟨hp, hacc⟩
  | cons s rest ih =>
    intro acc hl hacc hp
    have hs : s.confidence = c := hl s (List.mem_cons_self s rest)
    have hlr : ∀ x ∈ rest, x.confidence = c :=
      fun x hx => hl x (List.mem_cons_of_mem s hx)
    rcases processSpot_cases_no_replace isDup s c hs acc hacc with h1 | ⟨h1, hall⟩
    · simpa only [List.foldl_cons, h1] using ih acc hlr hacc hp
    · simp only [List.foldl_cons, h1]
      apply ih
      · exact hlr
      · intro x hx
        rcases List.mem_append.mp hx with hx | hx
        · exact hacc x hx
        · rw [List.mem_singleton.mp hx]
          exact hs
      · rw [List.pairwise_append]
        refine ⟨hp, List.pairwise_singleton _ _, ?_⟩
        intro a ha b hb
        rw [List.mem_singleton.mp hb]
        exact hall a ha

lemma foldl_processSpot_of_pairwise
    (isDup : ScrapedParkingSpot → ScrapedParkingSpot → Bool) :
    ∀ (l acc : List ScrapedParkingSpot),
      (acc ++ l).Pairwise (fun a b => isDup b a = false) →
      l.foldl (fun a s => processSpot isDup s a) acc = acc ++ l := by
  intro l
  induction l with
  | nil => intro acc _; simp
  | cons s rest ih =>
    intro acc hp
    have hnomatch : ∀ e ∈ acc, isDup s e = false := by
      rw [List.pairwise_append] at hp
      intro e he
      exact hp.2.2 e he s (List.mem_cons_self s rest)
    rw [List.foldl_cons, processSpot_no_match isDup s acc hnomatch]
    have := ih (acc ++ [s]) (by simpa using hp)
    simpa using this

/-- C2: when the incoming record `s` first matches the accepted spot `e`
(after a prefix `pre` of non-matching accepted spots), the engine replaces
`e` — removing it in place and appending `s` at the end — exactly when
the confidence of `s` is strictly greater, and otherwise (equal confidence
included) discards `s` leaving the accepted sequence unchanged; the spots
after `e` are never compared.  The second conjunct ties one such step to
the engine: processing one more candidate is exactly this step applied to
the output of the engine so far. -/
theorem c2_dedup_first_match_policy
    (isDup : ScrapedParkingSpot → ScrapedParkingSpot → Bool)
    (s e : ScrapedParkingSpot) (pre post : List ScrapedParkingSpot)
    (hpre : ∀ x ∈ pre, isDup s x = false) (he : isDup s e = true) :
    processSpot isDup s (pre ++ e :: post) =
      (if e.confidence < s.confidence then pre ++ post ++ [s]
       else pre ++ e :: post) ∧
    ∀ l, deduplicate_spots isDup (l ++ [s]) =
      processSpot isDup s (deduplicate_spots isDup l) := by
  constructor
  · induction pre with
    | nil =>
      by_cases hc : e.confidence < s.confidence <;>
        simp [processSpot, he, hc]
    | cons x xs ih =>
      have hx : isDup s x = false := hpre x (List.mem_cons_self x xs)
      have ihx := ih fun y hy => hpre y (List.mem_cons_of_mem x hy)
      have hstep : processSpot isDup s ((x :: xs) ++ e :: post) =
          x :: processSpot isDup s (xs ++ e :: post) := by
        simp [processSpot, hx]
      rw [hstep, ihx]
      by_cases hc : e.confidence < s.confidence <;> simp [hc]
  · intro l
    simp [deduplicate_spots, List.foldl_append]

/-- Witness for C2: with the name-based duplicate test, a higher-confidence
incoming record replaces the matched spot and moves to the end. -/
theorem c2_dedup_first_match_policy_witness :
    processSpot nameDup
        { dedupSpotC with name := "A" } ([dedupSpotB] ++ dedupSpotA :: []) =
      (if dedupSpotA.confidence <
          ({ dedupSpotC with name := "A" } : ScrapedParkingSpot).confidence
       then [dedupSpotB] ++ [] ++ [{ dedupSpotC with name := "A" }]
       else [dedupSpotB] ++ dedupSpotA :: []) ∧
    ∀ l, deduplicate_spots nameDup (l ++ [{ dedupSpotC with name := "A" }]) =
      processSpot nameDup { dedupSpotC with name := "A" }
        (deduplicate_spots nameDup l) :=
  c2_dedup_first_match_policy nameDup { dedupSpotC with name := "A" }
    dedupSpotA [dedupSpotB] []
    (by intro x hx; rw [List.mem_singleton.mp hx]; rfl) rfl

lemma sin_sq_swap (x y : ℝ) :
    Real.sin ((x - y) / 2) ^ 2 = Real.sin ((y - x) / 2) ^ 2 := by
  rw [show (x - y) / 2 = -((y - x) / 2) by ring, Real.sin_neg, neg_sq]

lemma calculate_distance_symm (lat1 lon1 lat2 lon2 : ℝ) :
    calculate_distance lat1 lon1 lat2 lon2 =
      calculate_distance lat2 lon2 lat1 lon1 := by
  simp only [calculate_distance]
  rw [sin_sq_swap (lat2 * Real.pi / 180) (lat1 * Real.pi / 180),
    sin_sq_swap (lon2 * Real.pi / 180) (lon1 * Real.pi / 180),
    mul_comm (Real.cos (lat1 * Real.pi / 180)) (Real.cos (lat2 * Real.pi / 180))]

lemma abs_sin_scaled (d : ℝ) (hd : |d| ≤ 360) :
    |Real.sin (d * (Real.pi / 360))| = Real.sin (|d| * (Real.pi / 360)) := by
  have hpi := Real.pi_pos
  have key : ∀ x : ℝ, 0 ≤ x → x ≤ 360 →
      |Real.sin (x * (Real.pi / 360))| = Real.sin (x * (Real.pi / 360)) := by
    intro x hx0 hx1
    apply abs_of_nonneg
    apply Real.sin_nonneg_of_nonneg_of_le_pi
    · positivity
    · calc x * (Real.pi / 360) ≤ 360 * (Real.pi / 360) := by
            apply mul_le_mul_of_nonneg_right hx1
            positivity
        _ = Real.pi := by ring
  rcases le_or_lt 0 d with hd0 | hd0
  · rw [abs_of_nonneg hd0] at hd ⊢
    exact key d hd0 hd
  · rw [abs_of_neg hd0] at hd ⊢
    rw [show d * (Real.pi / 360) = -(-d * (Real.pi / 360)) by ring,
      Real.sin_neg, abs_neg]
    exact key (-d) (by linarith) hd

/-- On a meridian (equal longitudes) the haversine distance is exactly the
Earth radius times the latitude difference in radians. -/
lemma calculate_distance_meridian (a b l : ℝ) (hab : |b - a| ≤ 180) :
    calculate_distance a l b l = 6371 * (|b - a| * Real.pi / 180) := by
  have hpi := Real.pi_pos
  simp only [calculate_distance]
  rw [show l * Real.pi / 180 - l * Real.pi / 180 = 0 by ring]
  rw [show (0 : ℝ) / 2 = 0 by norm_num, Real.sin_zero]
  rw [show Real.sin ((b * Real.pi / 180 - a * Real.pi / 180) / 2) ^ 2 +
      Real.cos (a * Real.pi / 180) * Real.cos (b * Real.pi / 180) * 0 ^ 2 =
      Real.sin ((b - a) * (Real.pi / 360)) ^ 2 by ring_nf]
  rw [Real.sqrt_sq_eq_abs, abs_sin_scaled (b - a) (by linarith)]
  have harg1 : 0 ≤ |b - a| * (Real.pi / 360) := by positivity
  have harg2 : |b - a| * (Real.pi / 360) ≤ Real.pi / 2 := by
    calc |b - a| * (Real.pi / 360) ≤ 180 * (Real.pi / 360) := by
          apply mul_le_mul_of_nonneg_right hab
          positivity
      _ = Real.pi / 2 := by ring
  rw [Real.arcsin_sin (by linarith) harg2]
  ring

lemma dist_lat_00008 :
    calculate_distance (8/10000 : ℝ) 0 0 0 < 1/10 := by
  rw [calculate_distance_meridian (8/10000 : ℝ) 0 0 (by norm_num [abs_of_nonpos])]
  rw [show |(0 : ℝ) - 8/10000| = 8/10000 by
    rw [show (0 : ℝ) - 8/10000 = -(8/10000) by ring, abs_neg,
      abs_of_nonneg (by norm_num)]]
  nlinarith [Real.pi_lt_d2]

lemma dist_lat_00016_far :
    ¬ calculate_distance (16/10000 : ℝ) 0 0 0 < 1/10 := by
  rw [not_lt, calculate_distance_meridian (16/10000 : ℝ) 0 0
    (by rw [show (0 : ℝ) - 16/10000 = -(16/10000) by ring, abs_neg,
      abs_of_nonneg (by norm_num)]; norm_num)]
  rw [show |(0 : ℝ) - 16/10000| = 16/10000 by
    rw [show (0 : ℝ) - 16/10000 = -(16/10000) by ring, abs_neg,
      abs_of_nonneg (by norm_num)]]
  nlinarith [Real.pi_gt_three]

lemma dist_lat_C_B :
    calculate_distance (8/10000 : ℝ) 0 (16/10000) 0 < 1/10 := by
  rw [calculate_distance_meridian (8/10000 : ℝ) (16/10000) 0
    (by rw [abs_of_nonneg (by norm_num)]; norm_num)]
  rw [show |(16/10000 : ℝ) - 8/10000| = 8/10000 by
    rw [abs_of_nonneg (by norm_num)]; norm_num]
  nlinarith [Real.pi_lt_d2]

lemma dist_lat_B_C :
    calculate_distance (16/10000 : ℝ) 0 (8/10000) 0 < 1/10 := by
  rw [calculate_distance_meridian (16/10000 : ℝ) (8/10000) 0
    (by rw [show (8/10000 : ℝ) - 16/10000 = -(8/10000) by ring, abs_neg,
      abs_of_nonneg (by norm_num)]; norm_num)]
  rw [show |(8/10000 : ℝ) - 16/10000| = 8/10000 by
    rw [show (8/10000 : ℝ) - 16/10000 = -(8/10000) by ring, abs_neg,
      abs_of_nonneg (by norm_num)]]
  nlinarith [Real.pi_lt_d2]

lemma closeBA_false : spotsCloseH dedupSpotB dedupSpotA = false := by
  simp only [spotsCloseH, dedupSpotB, dedupSpotA, decide_eq_false_iff_not]
  push_cast
  exact dist_lat_00016_far

lemma closeCA_true : spotsCloseH dedupSpotC dedupSpotA = true := by
  simp only [spotsCloseH, dedupSpotC, dedupSpotA, decide_eq_true_eq]
  push_cast
  exact dist_lat_00008

lemma closeCB_true : spotsCloseH dedupSpotC dedupSpotB = true := by
  simp only [spotsCloseH, dedupSpotC, dedupSpotB, decide_eq_true_eq]
  push_cast
  exact dist_lat_C_B

lemma distBC_lt : calculate_distance (dedupSpotB.latitude : ℝ)
    (dedupSpotB.longitude : ℝ) (dedupSpotC.latitude : ℝ)
    (dedupSpotC.longitude : ℝ) < 1 / 10 := by
  simp only [dedupSpotB, dedupSpotC]
  push_cast
  exact dist_lat_B_C

lemma dedup_ABC_eval :
    deduplicate_spotsH [dedupSpotA, dedupSpotB, dedupSpotC] =
      [dedupSpotB, dedupSpotC] := by
  have hconf : dedupSpotA.confidence < dedupSpotC.confidence := by
    norm_num [dedupSpotA, dedupSpotC]
  unfold deduplicate_spotsH deduplicate_spots
  simp only [List.foldl_cons, List.foldl_nil]
  rw [show processSpot spotsCloseH dedupSpotA [] = [dedupSpotA] from rfl]
  rw [show processSpot spotsCloseH dedupSpotB [dedupSpotA] =
      [dedupSpotA, dedupSpotB] by simp [processSpot, closeBA_false]]
  simp [processSpot, closeCA_true, hconf]

lemma dedup_BC_eval :
    deduplicate_spotsH [dedupSpotB, dedupSpotC] = [dedupSpotC] := by
  have hconf : dedupSpotB.confidence < dedupSpotC.confidence := by
    norm_num [dedupSpotB, dedupSpotC]
  unfold deduplicate_spotsH deduplicate_spots
  simp only [List.foldl_cons, List.foldl_nil]
  rw [show processSpot spotsCloseH dedupSpotB [] = [dedupSpotB] from rfl]
  simp [processSpot, closeCB_true, hconf]

/-- C1 counterexample: on the input `[A, B, C]` — `A` at latitude 0 with
confidence 0.5, `B` at latitude 0.0016° (about 178 m from `A`) with
confidence 0.5, `C` at latitude 0.0008° (about 89 m from both) with
confidence 0.9, all at longitude 0 — the engine accepts `A` and `B`, then
lets `C` replace `A` (its first match) without re-checking `C` against
`B`; the output `[B, C]` has two spots about 89 m apart, and re-running
the engine on it merges them, returning `[C]`.  Both the claimed
invariant and idempotence fail. -/
theorem c1_dedup_counterexample :
    ¬ pairwiseSeparated
        (deduplicate_spotsH [dedupSpotA, dedupSpotB, dedupSpotC]) ∧
    deduplicate_spotsH
        (deduplicate_spotsH [dedupSpotA, dedupSpotB, dedupSpotC]) ≠
      deduplicate_spotsH [dedupSpotA, dedupSpotB, dedupSpotC] := by
  rw [dedup_ABC_eval]
  constructor
  · intro hp
    exact (List.pairwise_cons.mp hp).1 dedupSpotC
      (List.mem_singleton_self _) distBC_lt
  · rw [dedup_BC_eval]
    simp

/-- C1 amended: when no replacement can occur — in particular when all
candidate records carry one and the same confidence, so that the
strictly-greater test never fires — the output of the Deduplication Engine
contains no two spots within 0.1 km of each other, and re-running the
engine on its own output returns it unchanged.  (In general a replacement
may put the new record within 0.1 km of another accepted spot, as the
counterexample shows.) -/
theorem c1_dedup_const_confidence (spots : List ScrapedParkingSpot) (c : ℚ)
    (h : ∀ s ∈ spots, s.confidence = c) :
    pairwiseSeparated (deduplicate_spotsH spots) ∧
    deduplicate_spotsH (deduplicate_spotsH spots) =
      deduplicate_spotsH spots := by
  have hinv := foldl_processSpot_invariant spotsCloseH c spots [] h
    (by simp) (by simp)
  have hpair : (deduplicate_spotsH spots).Pairwise
      (fun a b => spotsCloseH b a = false) := by
    simpa [deduplicate_spotsH, deduplicate_spots] using hinv.1
  constructor
  · refine List.Pairwise.imp ?_ hpair
    intro a b hab hlt
    have hba : spotsCloseH b a = true := by
      simp only [spotsCloseH, decide_eq_true_eq]
      rw [calculate_distance_symm]
      exact hlt
    rw [hba] at hab
    cases hab
  · have hid := foldl_processSpot_of_pairwise spotsCloseH
      (deduplicate_spotsH spots) [] (by simpa using hpair)
    simpa [deduplicate_spotsH, deduplicate_spots] using hid

/-- Witness for C1 amended at two concrete equal-confidence spots. -/
theorem c1_dedup_const_confidence_witness :
    pairwiseSeparated (deduplicate_spotsH [dedupSpotA, dedupSpotB]) ∧
    deduplicate_spotsH (deduplicate_spotsH [dedupSpotA, dedupSpotB]) =
      deduplicate_spotsH [dedupSpotA, dedupSpotB] :=
  c1_dedup_const_confidence [dedupSpotA, dedupSpotB] (1/2)
    (by
      intro s hs
      simp only [List.mem_cons, List.not_mem_nil, or_false] at hs
      rcases hs with rfl | rfl <;> rfl)

lemma cacheInsert_self (c : Cache) (k : ℚ × ℚ × ℚ)
    (v : List ScrapedParkingSpot × ℚ) : cacheInsert c k v k = some v := by
  simp [cacheInsert]

/-- C4: a cache-miss search stores the deduplicated, pre-filter spot set
under the key of rounded coordinates plus radius; a subsequent search
whose geocoded coordinates round to the same key and whose radius is
equal, while the entry is still fresh, returns the Requirement Filter of
that same cached deduplicated set under the new requirements — whatever
its own connectors would have answered. -/
theorem c4_cache_stores_prefilter_and_reuses
    (env env' : Env) (reqs reqs' : CamperRequirements) (cache : Cache)
    (la lo la' lo' : ℚ) (osmSpots : List ScrapedParkingSpot)
    (hg : env.geocode = some (la, lo))
    (hg' : env'.geocode = some (la', lo'))
    (hla : round4 la' = round4 la) (hlo : round4 lo' = round4 lo)
    (hr : reqs'.radius_km = reqs.radius_km)
    (hmiss : cache (cacheKey la lo reqs.radius_km) = none)
    (hosm : osm_search env.osm_response = .ok osmSpots)
    (hfresh : env'.now - env.now < cache_duration) :
    find_parking_spots env reqs cache =
      .ok (filter_spots (deduplicate_spotsH (all_spots_from env osmSpots)) reqs,
        cacheInsert cache (cacheKey la lo reqs.radius_km)
          (deduplicate_spotsH (all_spots_from env osmSpots), env.now)) ∧
    find_parking_spots env' reqs'
        (cacheInsert cache (cacheKey la lo reqs.radius_km)
          (deduplicate_spotsH (all_spots_from env osmSpots), env.now)) =
      .ok (filter_spots (deduplicate_spotsH (all_spots_from env osmSpots)) reqs',
        cacheInsert cache (cacheKey la lo reqs.radius_km)
          (deduplicate_spotsH (all_spots_from env osmSpots), env.now)) := by
  constructor
  · simp [find_parking_spots, hg, hmiss, hosm, all_spots_from]
  · have hkey : cacheKey la' lo' reqs'.radius_km =
        cacheKey la lo reqs.radius_km := by
      simp [cacheKey, hla, hlo, hr]
    simp only [find_parking_spots, hg', hkey, cacheInsert_self]
    rw [if_pos hfresh]

/-- Witness for C4: a first search on an empty cache followed by a fresh
second search with different requirements at the same key. -/
theorem c4_cache_stores_prefilter_and_reuses_witness :
    find_parking_spots emptyEnv demoReqs emptyCache =
      .ok (filter_spots (deduplicate_spotsH (all_spots_from emptyEnv [])) demoReqs,
        cacheInsert emptyCache (cacheKey 60 24 demoReqs.radius_km)
          (deduplicate_spotsH (all_spots_from emptyEnv []), emptyEnv.now)) ∧
    find_parking_spots { emptyEnv with now := 100 }
        { demoReqs with needs_overnight := false }
        (cacheInsert emptyCache (cacheKey 60 24 demoReqs.radius_km)
          (deduplicate_spotsH (all_spots_from emptyEnv []), emptyEnv.now)) =
      .ok (filter_spots (deduplicate_spotsH (all_spots_from emptyEnv []))
          { demoReqs with needs_overnight := false },
        cacheInsert emptyCache (cacheKey 60 24 demoReqs.radius_km)
          (deduplicate_spotsH (all_spots_from emptyEnv []), emptyEnv.now)) :=
  c4_cache_stores_prefilter_and_reuses emptyEnv
    { emptyEnv with now := 100 } demoReqs
    { demoReqs with needs_overnight := false } emptyCache
    60 24 60 24 [] rfl rfl rfl rfl rfl rfl rfl
    (by norm_num [emptyEnv, cache_duration])

/-- C5: with an entry stored at time `ts` under the looked-up key, a search
at `ts + cache_duration - 1` is a hit (the cached set is filtered and
returned, the cache untouched, the connectors ignored), while a search at
`ts + cache_duration + 1` is a miss (the connectors are called and the
entry is overwritten); `cache_duration` is 3600 seconds and validity is
the strict test `now - timestamp < cache_duration`. -/
theorem c5_cache_ttl_boundary (la lo : ℚ) (reqs : CamperRequirements)
    (cache : Cache) (data : List ScrapedParkingSpot) (ts : ℚ)
    (hc : cache (cacheKey la lo reqs.radius_km) = some (data, ts)) :
    (∀ env : Env, env.geocode = some (la, lo) →
      env.now = ts + cache_duration - 1 →
      find_parking_spots env reqs cache =
        .ok (filter_spots data reqs, cache)) ∧
    (∀ (env : Env) (osmSpots : List ScrapedParkingSpot),
      env.geocode = some (la, lo) →
      env.now = ts + cache_duration + 1 →
      osm_search env.osm_response = .ok osmSpots →
      find_parking_spots env reqs cache =
        .ok (filter_spots (deduplicate_spotsH (all_spots_from env osmSpots)) reqs,
          cacheInsert cache (cacheKey la lo reqs.radius_km)
            (deduplicate_spotsH (all_spots_from env osmSpots), env.now))) := by
  constructor
  · intro env hg hnow
    simp only [find_parking_spots, hg, hc]
    rw [hnow, if_pos (by linarith)]
  · intro env osmSpots hg hnow hosm
    simp only [find_parking_spots, hg, hc]
    rw [hnow, if_neg (by push_neg; linarith), hosm]
    simp [all_spots_from]

/-- Witness for C5 at a concrete environment and a cache whose entry was
created at time 100. -/
theorem c5_cache_ttl_boundary_witness :
    find_parking_spots { emptyEnv with now := 100 + cache_duration - 1 }
        demoReqs stockedCache =
      .ok (filter_spots [dedupSpotA] demoReqs, stockedCache) ∧
    find_parking_spots { emptyEnv with now := 100 + cache_duration + 1 }
        demoReqs stockedCache =
      .ok (filter_spots (deduplicate_spotsH
            (all_spots_from { emptyEnv with now := 100 + cache_duration + 1 } []))
          demoReqs,
        cacheInsert stockedCache (cacheKey 60 24 demoReqs.radius_km)
          (deduplicate_spotsH
            (all_spots_from { emptyEnv with now := 100 + cache_duration + 1 } []),
           ({ emptyEnv with now := 100 + cache_duration + 1 } : Env).now)) :=
  ⟨(c5_cache_ttl_boundary 60 24 demoReqs stockedCache [dedupSpotA] 100 rfl).1
      { emptyEnv with now := 100 + cache_duration - 1 } rfl rfl,
   (c5_cache_ttl_boundary 60 24 demoReqs stockedCache [dedupSpotA] 100 rfl).2
      { emptyEnv with now := 100 + cache_duration + 1 } [] rfl rfl rfl⟩

/-- C6 counterexample: in `badOsmEnv` the OSM connector raises a
`KeyError` past its own boundary (its `except` clauses cover only request
and JSON-decode failures), and that single error aborts the whole search:
`find_parking_spots` propagates the error and `search_parking` returns
the `error` outcome, even though the city connector had one good record
to contribute. -/
theorem c6_connector_error_counterexample :
    osm_search badOsmEnv.osm_response = .error PyErr.keyError ∧
    city_search badOsmEnv.city_response = [noOvernightSpot] ∧
    find_parking_spots badOsmEnv demoReqs emptyCache =
      .error PyErr.keyError ∧
    (search_parking badOsmEnv demoParams emptyCache).1 =
      .error "Search failed" :=
  ⟨rfl, rfl, rfl, rfl⟩

/-- C6 amended: a connector failure of a kind the connector itself
absorbs — an OSM request error, an OSM JSON-decode error, any error
inside the broad handler of the city scraper, any error inside one of the
Google per-type handlers — contributes zero records and leaves the rest
of the search unchanged; but an OSM parse `KeyError` escapes and aborts
the search (see the counterexample). -/
lemma find_parking_spots_congr_google (env : Env)
    (reqs : CamperRequirements) (cache : Cache)
    (g1 g2 : List (Except Unit (List ScrapedParkingSpot)))
    (h : google_search env.google_key g1 = google_search env.google_key g2) :
    find_parking_spots { env with google_responses := g1 } reqs cache =
      find_parking_spots { env with google_responses := g2 } reqs cache := by
  dsimp only [find_parking_spots]
  rw [h]

theorem c6_absorbed_connector_errors_isolated (env : Env)
    (reqs : CamperRequirements) (cache : Cache) :
    (∀ e : Unit,
      find_parking_spots { env with osm_response := .error e } reqs cache =
        find_parking_spots { env with osm_response := .ok (.ok []) } reqs cache) ∧
    (∀ e : Unit,
      find_parking_spots { env with osm_response := .ok (.error e) } reqs cache =
        find_parking_spots { env with osm_response := .ok (.ok []) } reqs cache) ∧
    (∀ e : Unit,
      find_parking_spots { env with city_response := .error e } reqs cache =
        find_parking_spots { env with city_response := .ok [] } reqs cache) ∧
    (∀ (e : Unit) (pre post : List (Except Unit (List ScrapedParkingSpot))),
      find_parking_spots
          { env with google_responses := pre ++ .error e :: post } reqs cache =
        find_parking_spots
          { env with google_responses := pre ++ .ok [] :: post } reqs cache) :=
  ⟨fun _ => rfl, fun _ => rfl, fun _ => rfl,
   fun e pre post =>
    find_parking_spots_congr_google env reqs cache
      (pre ++ .error e :: post) (pre ++ .ok [] :: post)
      (by simp [google_search, absorbExcept])⟩

/-- C7: an unresolvable location, and likewise a search in which every
connector returns the empty sequence, completes with the `no_results`
outcome — an ordinary value carrying the attempted parameters, not the
`error` outcome. -/
theorem c7_empty_is_no_results (env : Env) (p : SearchParams)
    (cache : Cache) :
    (env.geocode = none →
      search_parking env p cache =
        (.no_results ("No suitable parking spots found near " ++ p.location)
          "Try expanding search radius or adjusting requirements" p, cache)) ∧
    (∀ la lo, env.geocode = some (la, lo) →
      cache (cacheKey la lo p.radius_km) = none →
      osm_search env.osm_response = .ok [] →
      google_search env.google_key env.google_responses = [] →
      city_search env.city_response = [] →
      (search_parking env p cache).1 =
        .no_results ("No suitable parking spots found near " ++ p.location)
          "Try expanding search radius or adjusting requirements" p) := by
  constructor
  · intro hg
    simp [search_parking, find_parking_spots, hg]
  · intro la lo hg hmiss hosm hgoogle hcity
    have hrad : (reqsOfParams p).radius_km = p.radius_km := rfl
    simp [search_parking, find_parking_spots, hg, hrad, hmiss, hosm,
      hgoogle, hcity, deduplicate_spotsH, deduplicate_spots, filter_spots,
      sortByConfidenceDesc]

/-- Witness for C7: a geocoder failure and an all-connectors-empty search,
both at concrete inputs. -/
theorem c7_empty_is_no_results_witness :
    search_parking { emptyEnv with geocode := none } demoParams emptyCache =
      (.no_results
        ("No suitable parking spots found near " ++ demoParams.location)
        "Try expanding search radius or adjusting requirements" demoParams,
       emptyCache) ∧
    (search_parking emptyEnv demoParams emptyCache).1 =
      .no_results
        ("No suitable parking spots found near " ++ demoParams.location)
        "Try expanding search radius or adjusting requirements" demoParams :=
  ⟨(c7_empty_is_no_results { emptyEnv with geocode := none } demoParams
      emptyCache).1 rfl,
   (c7_empty_is_no_results emptyEnv demoParams emptyCache).2 60 24
      rfl rfl rfl rfl rfl⟩

/-- C8 counterexample: a search that finds no candidates at all
(`emptyEnv`) and a search that finds one candidate which the Requirement
Filter then removes (`filteredEnv`, with a no-overnight spot against a
`needs_overnight` request) return literally the same `no_results`
outcome: the code does not distinguish "no candidates found" from "no
matches after filtering". -/
theorem c8_outcomes_not_distinct_counterexample :
    deduplicate_spotsH (all_spots_from filteredEnv []) = [noOvernightSpot] ∧
    (search_parking filteredEnv demoParams emptyCache).1 =
      (search_parking emptyEnv demoParams emptyCache).1 :=
  ⟨rfl, rfl⟩

/-- C8 amended: whenever the finder returns the empty list — whether no
candidate was found or every candidate was filtered out — the caller
receives one and the same `no_results` outcome, which does carry the
attempted search parameters, enabling a retry with relaxed constraints
(`retry_with_larger_radius` reruns the search with a new radius and the
same saved parameters). -/
theorem c8_no_results_carries_params (env : Env) (p : SearchParams)
    (cache cache' : Cache)
    (h : find_parking_spots env (reqsOfParams p) cache = .ok ([], cache')) :
    (search_parking env p cache).1 =
      .no_results ("No suitable parking spots found near " ++ p.location)
        "Try expanding search radius or adjusting requirements" p ∧
    ∀ r, retry_with_larger_radius env p r cache =
      search_parking env { p with radius_km := r } cache := by
  constructor
  · simp [search_parking, h]
  · intro r
    rfl

/-- Witness for C8 amended at the all-filtered-out environment. -/
theorem c8_no_results_carries_params_witness :
    (search_parking filteredEnv demoParams emptyCache).1 =
      .no_results
        ("No suitable parking spots found near " ++ demoParams.location)
        "Try expanding search radius or adjusting requirements" demoParams ∧
    ∀ r, retry_with_larger_radius filteredEnv demoParams r emptyCache =
      search_parking filteredEnv { demoParams with radius_km := r }
        emptyCache :=
  c8_no_results_carries_params filteredEnv demoParams emptyCache
    (cacheInsert emptyCache
      (cacheKey 60 24 (reqsOfParams demoParams).radius_km)
      (deduplicate_spotsH (all_spots_from filteredEnv []),
        filteredEnv.now)) rfl
